import Mathlib

/-!
Shallow embedding of the Solarinvest-Monitor poll worker
(apps/worker/src/poll-worker.ts, apps/worker/src/monitoring-utils.ts,
packages/integrations/core/src/base-mock-adapter.ts).

Conventions of the embedding:
* Instants are epoch milliseconds (`Int`), as produced by JS `Date.getTime()`.
* JS numbers (energies, powers) are `ℚ`; the source's arithmetic on them
  (division by 3600000, `* 0.1`, `* 0.3`) is exact rational arithmetic.
* `new Date().toISOString().split('T')[0]` (the UTC calendar date of an
  instant) is `utcDay`; `new Date(dateStr)` is `utcMidnight`/`dayMs`.
  The worker process clock is modelled in UTC, so `setDate(getDate() - i)`
  is subtraction of `i` whole days in milliseconds.
* Prisma rows become entries of in-memory lists inside a `DB` record;
  `findUnique`/`findFirst` become `List.find?`, `update` becomes a `map`
  that rewrites the matched row, `create` appends.  The unique index
  `metric_snapshots_plant_id_date_key` (prisma migration) makes a
  `create` of a duplicate `(plant_id, date)` throw; this is modelled in
  the backfill insert loop.
* Each `await <fallible call>` outcome is an `Except JsError` value
  supplied up-front through an `AdapterEnv` record, so the executor is a
  total function of the environment and the starting state.
* Alert message strings built with template literals and `toFixed` are
  modelled as an inductive `Message` carrying the same data.
-/

namespace Solarinvest

/-- Milliseconds per hour; the source divides by `1000 * 60 * 60`. -/
def msPerHour : Int := 1000 * 60 * 60

/-- Milliseconds per day. -/
def msPerDay : Int := 24 * msPerHour

/-- UTC calendar day (days since the epoch) of an instant; this is what
`new Date(t).toISOString().split('T')[0]` denotes. -/
def utcDay (t : Int) : Int := t.fdiv msPerDay

/-- The instant at midnight UTC of a day number, i.e. `new Date(dateStr)`
for a `YYYY-MM-DD` string. -/
def dayMs (d : Int) : Int := d * msPerDay

/-- Midnight UTC of the UTC day of `t`. -/
def utcMidnight (t : Int) : Int := dayMs (utcDay t)

/-- `(now.getTime() - t.getTime()) / (1000 * 60 * 60)` as exact rationals.
Written with `Rat.divInt` (identical to `/` on these arguments, see
`hoursSince_eq_div`) so that concrete instances evaluate. -/
def hoursSince (now t : Int) : ℚ := Rat.divInt (now - t) (1000 * 60 * 60)

/-- Exact `q * (k / 10)`: the JS `median * 0.1` and `median * 0.3`.
Written with `Rat.divInt` (see `mulTenths_eq`) so that concrete instances
evaluate. -/
def mulTenths (k : Int) (q : ℚ) : ℚ := Rat.divInt (k * q.num) (10 * (q.den : Int))

/-- Alarm/alert severity enum (prisma `Severity`). -/
inductive Severity
  | LOW | MEDIUM | HIGH | CRITICAL
deriving DecidableEq, Repr

/-- Alert lifecycle state enum (prisma `AlertState`). -/
inductive AlertState
  | NEW | ACKED | RESOLVED
deriving DecidableEq, Repr

/-- Alert type strings used by the worker. -/
inductive AlertType
  | MOCK_FAULT | LOW_GENERATION | OFFLINE
deriving DecidableEq, Repr

/-- Plant health status enum (prisma `PlantStatus`). -/
inductive PlantStatus
  | GREEN | YELLOW | RED | GREY
deriving DecidableEq, Repr

/-- Integration status enum (prisma `IntegrationStatus`). -/
inductive IntegrationStatus
  | ACTIVE | PENDING_DOCS | PAUSED_AUTH_ERROR | DISABLED
deriving DecidableEq, Repr

/-- PollLog status: the worker's `pollStatus` variable is typed
`'SUCCESS' | 'ERROR'`. -/
inductive PollStatus
  | SUCCESS | ERROR
deriving DecidableEq, Repr

/-- Alert message contents: template-literal strings are modelled as
constructors carrying the interpolated data. -/
inductive Message
  | vendor (s : String)
  | lowGen (todayEnergy median : ℚ)
  | offline (hours : Int)
deriving DecidableEq, Repr

/-- A row of the `alerts` table (fields the worker reads or writes). -/
structure Alert where
  id : Nat
  plant_id : String
  type : AlertType
  severity : Severity
  state : AlertState
  vendor_alarm_code : Option String
  device_sn : Option String
  message : Message
  occurred_at : Int
  cleared_at : Option Int
  last_seen_at : Int
deriving DecidableEq, Repr

/-- A row of the `metric_snapshots` table.  `date` is the stored instant
(midnight UTC of the calendar date, as `new Date('YYYY-MM-DD')`). -/
structure Snapshot where
  plant_id : String
  date : Int
  timezone : String
  today_energy_kwh : ℚ
  current_power_w : Option ℚ
  grid_injection_power_w : Option ℚ
  total_energy_kwh : Option ℚ
  last_seen_at : Int
  source_sampled_at : Int
deriving DecidableEq, Repr

/-- A row of the `plants` table (fields the worker reads or writes). -/
structure Plant where
  id : String
  brand : String
  timezone : String
  vendor_plant_id : Option String
  integration_status : IntegrationStatus
  status : PlantStatus
deriving DecidableEq, Repr

/-- A row of the `poll_logs` table. -/
structure PollLog where
  plant_id : String
  job_type : String
  status : PollStatus
  duration_ms : Int
  adapter_error_type : Option String
  http_status : Option Int
  started_at : Int
  finished_at : Int
deriving DecidableEq, Repr

/-- The database state seen by one worker run. -/
structure DB where
  plants : List Plant
  snapshots : List Snapshot
  alerts : List Alert
  pollLogs : List PollLog
  nextAlertId : Nat
deriving DecidableEq, Repr

/-- `prisma.plant.findUnique({ where: { id } })`. -/
def plantOf (db : DB) (pid : String) : Option Plant :=
  db.plants.find? (fun p => p.id == pid)

/-- The normalized plant summary returned by `adapter.getPlantSummary`. -/
structure NormalizedPlantSummary where
  currentPowerW : ℚ
  todayEnergyKWh : ℚ
  totalEnergyKWh : Option ℚ
  gridInjectionPowerW : Option ℚ
  lastSeenAt : Int
  sourceSampledAt : Int
  timezone : String
deriving DecidableEq, Repr

/-- The normalized alarm returned by `adapter.getAlarmsSince`. -/
structure NormalizedAlarm where
  vendorAlarmCode : String
  deviceSn : Option String
  message : String
  occurredAt : Int
  isActive : Bool
  severity : Severity
deriving DecidableEq, Repr

/-- One point of `NormalizedDailySeries.dataPoints`; `day` is the
`YYYY-MM-DD` string as a day number. -/
structure SeriesPoint where
  day : Int
  energyKWh : ℚ
deriving DecidableEq, Repr

/-- A thrown JS value: `name = some n` for an `Error` instance with that
`.name`, `none` for a thrown non-`Error` value. -/
structure JsError where
  name : Option String
deriving DecidableEq, Repr

/-- The outcomes of the adapter calls a single run can make. -/
structure AdapterEnv where
  summaryRes : Except JsError NormalizedPlantSummary
  alarmsRes : Except JsError (List NormalizedAlarm)
  seriesRes : Int → Int → Except JsError (List SeriesPoint)

/-- The pure core of `updatePlantStatus`: the sequential assignments to
`newStatus` in poll-worker.ts lines 195-223.  `redAlerts` is the count of
alerts with `state = NEW` and `severity = CRITICAL` for the plant. -/
def computePlantStatus (integrationActive : Bool)
    (hoursSinceLastSeen : ℚ) (redAlerts : Nat) : PlantStatus :=
  let base : PlantStatus :=
    if ¬integrationActive then .GREY
    else if hoursSinceLastSeen > 24 then .RED
    else if hoursSinceLastSeen > 2 then .YELLOW
    else .GREEN
  if redAlerts > 0 then .RED else base

/-- The `where` clause of the red-alert count in `updatePlantStatus`:
`{ plant_id, state: 'NEW', severity: 'CRITICAL' }`. -/
def redAlertWhere (pid : String) (a : Alert) : Bool :=
  a.plant_id == pid && a.state == .NEW && a.severity == .CRITICAL

/-- `updatePlantStatus(plantId, lastSeenAt)` from poll-worker.ts. -/
def updatePlantStatus (now lastSeenAt : Int) (pid : String) (db : DB) : DB :=
  match plantOf db pid with
  | none => db
  | some plant =>
    let newStatus := computePlantStatus (plant.integration_status == .ACTIVE)
      (hoursSince now lastSeenAt) ((db.alerts.filter (redAlertWhere pid)).length)
    if plant.status ≠ newStatus then
      let plants := db.plants.map
        (fun p => if p.id == pid then { p with status := newStatus } else p)
      { db with plants := plants }
    else db

/-- Rewrite the alert row with the given id (`prisma.alert.update({ where: { id } })`). -/
def updateAlertById (alerts : List Alert) (aid : Nat) (f : Alert → Alert) : List Alert :=
  alerts.map (fun a => if a.id == aid then f a else a)

/-- The dedup lookup `where` clause of `processAlarms`:
`{ plant_id, type: 'MOCK_FAULT', vendor_alarm_code, device_sn, state: { in: ['NEW','ACKED'] } }`.
When `alarm.deviceSn` is `undefined`, Prisma drops that condition. -/
def alarmWhereMatch (pid : String) (alarm : NormalizedAlarm) (a : Alert) : Bool :=
  a.plant_id == pid && a.type == .MOCK_FAULT &&
    a.vendor_alarm_code == some alarm.vendorAlarmCode &&
    (match alarm.deviceSn with
     | none => true
     | some sn => a.device_sn == some sn) &&
    (a.state == .NEW || a.state == .ACKED)

/-- One iteration of the `for (const alarm of alarms)` loop in `processAlarms`. -/
def processOneAlarm (now : Int) (pid : String) (alarm : NormalizedAlarm) (db : DB) : DB :=
  let existingAlert := db.alerts.find? (alarmWhereMatch pid alarm)
  let db1 :=
    match existingAlert with
    | some ex =>
      let alerts := updateAlertById db.alerts ex.id (fun a => { a with last_seen_at := now })
      { db with alerts := alerts }
    | none =>
      if alarm.isActive then
        let row : Alert :=
          { id := db.nextAlertId, plant_id := pid, type := .MOCK_FAULT,
            severity := alarm.severity, state := .NEW,
            vendor_alarm_code := some alarm.vendorAlarmCode,
            device_sn := alarm.deviceSn, message := .vendor alarm.message,
            occurred_at := alarm.occurredAt, cleared_at := none, last_seen_at := now }
        { db with alerts := db.alerts ++ [row], nextAlertId := db.nextAlertId + 1 }
      else db
  match existingAlert with
  | some ex =>
    if !alarm.isActive then
      let alerts := updateAlertById db1.alerts ex.id
        (fun a => { a with state := .RESOLVED, cleared_at := some now })
      { db1 with alerts := alerts }
    else db1
  | none => db1

/-- `processAlarms(plantId, adapter)`: its `since` is `now − 24h` and its body
is wrapped in a try/catch that swallows every error. -/
def processAlarms (now : Int) (pid : String)
    (alarmsRes : Except JsError (List NormalizedAlarm)) (db : DB) : DB :=
  match alarmsRes with
  | .error _ => db
  | .ok alarms => alarms.foldl (fun d a => processOneAlarm now pid a d) db

/-- Does a snapshot row with this `(plant_id, date)` exist?  This is the
unique index `metric_snapshots_plant_id_date_key`. -/
def snapExists (snaps : List Snapshot) (pid : String) (date : Int) : Bool :=
  snaps.any (fun s => s.plant_id == pid && s.date == date)

/-- The snapshot row `backfillMetrics` creates for a series point. -/
def backfillRow (now : Int) (pid tz : String) (p : SeriesPoint) : Snapshot :=
  { plant_id := pid, date := dayMs p.day, timezone := tz,
    today_energy_kwh := p.energyKWh, current_power_w := none,
    grid_injection_power_w := none, total_energy_kwh := none,
    last_seen_at := now, source_sampled_at := now }

/-- The `for (const point of series.dataPoints)` loop of `backfillMetrics`.
A `prisma.metricSnapshot.create` whose `(plant_id, date)` already exists
throws (unique index); the throw is caught by the function's outer catch,
so the loop stops and the rows created so far remain. -/
def backfillInsertLoop (now : Int) (pid tz : String) (existingDates : List Int) :
    List SeriesPoint → DB → DB
  | [], db => db
  | p :: rest, db =>
    if existingDates.contains p.day then
      backfillInsertLoop now pid tz existingDates rest db
    else if snapExists db.snapshots pid (dayMs p.day) then
      db
    else
      backfillInsertLoop now pid tz existingDates rest
        { db with snapshots := db.snapshots ++ [backfillRow now pid tz p] }

/-- `backfillMetrics(plantId, timezone, adapter)` from monitoring-utils.ts. -/
def backfillMetrics (now : Int) (pid tz : String)
    (seriesRes : Int → Int → Except JsError (List SeriesPoint)) (db : DB) : DB :=
  let today := now
  let threeDaysAgo := now - 3 * msPerDay
  let existing := db.snapshots.filter
    (fun s => s.plant_id == pid && decide (threeDaysAgo ≤ s.date) && decide (s.date ≤ today))
  let existingDates := existing.map (fun s => utcDay s.date)
  let missingDates := [3, 2, 1, 0].filterMap (fun i =>
    let d := utcDay (now - i * msPerDay)
    if existingDates.contains d then none else some d)
  match missingDates with
  | [] => db
  | d0 :: rest =>
    match seriesRes (dayMs d0) (dayMs ((d0 :: rest).getLastD d0)) with
    | .error _ => db
    | .ok points => backfillInsertLoop now pid tz existingDates points db

/-- Insert a snapshot into a list sorted by `date` descending. -/
def insertByDateDesc (s : Snapshot) : List Snapshot → List Snapshot
  | [] => [s]
  | t :: ts => if t.date ≤ s.date then s :: t :: ts else t :: insertByDateDesc s ts

/-- `orderBy: { date: 'desc' }` as an insertion sort. -/
def sortByDateDesc : List Snapshot → List Snapshot
  | [] => []
  | s :: rest => insertByDateDesc s (sortByDateDesc rest)

/-- Insert a rational into an ascending-sorted list. -/
def insertAscQ (x : ℚ) : List ℚ → List ℚ
  | [] => [x]
  | y :: ys => if x ≤ y then x :: y :: ys else y :: insertAscQ x ys

/-- The JS `.sort((a, b) => a - b)` on the energy values. -/
def sortAscQ : List ℚ → List ℚ
  | [] => []
  | x :: xs => insertAscQ x (sortAscQ xs)

/-- The dedup lookup of the LOW_GENERATION alert helpers:
`{ plant_id, type: 'LOW_GENERATION', state: { in: ['NEW','ACKED'] } }`. -/
def lowGenWhere (pid : String) (a : Alert) : Bool :=
  a.plant_id == pid && a.type == .LOW_GENERATION &&
    (a.state == .NEW || a.state == .ACKED)

/-- `createOrUpdateLowGenAlert(plantId, severity, todayEnergy, median)`. -/
def createOrUpdateLowGenAlert (now : Int) (pid : String) (sev : Severity)
    (todayEnergy median : ℚ) (db : DB) : DB :=
  match db.alerts.find? (lowGenWhere pid) with
  | some ex =>
    let alerts := updateAlertById db.alerts ex.id
      (fun a => { a with severity := sev, message := .lowGen todayEnergy median,
                         last_seen_at := now })
    { db with alerts := alerts }
  | none =>
    let row : Alert :=
      { id := db.nextAlertId, plant_id := pid, type := .LOW_GENERATION,
        severity := sev, state := .NEW, vendor_alarm_code := none,
        device_sn := none, message := .lowGen todayEnergy median,
        occurred_at := now, cleared_at := none, last_seen_at := now }
    { db with alerts := db.alerts ++ [row], nextAlertId := db.nextAlertId + 1 }

/-- `resolveLowGenAlert(plantId)`. -/
def resolveLowGenAlert (now : Int) (pid : String) (db : DB) : DB :=
  match db.alerts.find? (lowGenWhere pid) with
  | some ex =>
    let alerts := updateAlertById db.alerts ex.id
      (fun a => { a with state := .RESOLVED, cleared_at := some now })
    { db with alerts := alerts }
  | none => db

/-- The snapshot window `checkLowGeneration` queries: plant rows with
`sevenDaysAgo ≤ date < now`, ordered by `date` descending, `take: 7`.
Because `now` carries a time of day and snapshot dates are midnights,
the window includes today's snapshot whenever `now` is past midnight. -/
def lowGenWindow (now : Int) (pid : String) (db : DB) : List Snapshot :=
  (sortByDateDesc (db.snapshots.filter
    (fun s => s.plant_id == pid && decide (now - 7 * msPerDay ≤ s.date) &&
      decide (s.date < now)))).take 7

/-- `energies[Math.floor(energies.length / 2)]` over the ascending sort. -/
def lowGenMedian (snaps : List Snapshot) : ℚ :=
  let energies := sortAscQ (snaps.map (fun s => s.today_energy_kwh))
  energies.getD (energies.length / 2) 0

/-- `findFirst` for today's snapshot: `{ plant_id, date: { gte: midnight } }`. -/
def todaySnapshotOf (now : Int) (pid : String) (db : DB) : Option Snapshot :=
  db.snapshots.find? (fun s => s.plant_id == pid && decide (utcMidnight now ≤ s.date))

/-- `checkLowGeneration(plantId)` from monitoring-utils.ts. -/
def checkLowGeneration (now : Int) (pid : String) (db : DB) : DB :=
  let snapshots := lowGenWindow now pid db
  if snapshots.length < 3 then db
  else
    let median := lowGenMedian snapshots
    match todaySnapshotOf now pid db with
    | none => db
    | some ts =>
      let todayEnergy := ts.today_energy_kwh
      let threshold10 := mulTenths 1 median
      let threshold30 := mulTenths 3 median
      if todayEnergy < threshold10 then
        createOrUpdateLowGenAlert now pid .CRITICAL todayEnergy median db
      else if todayEnergy < threshold30 then
        createOrUpdateLowGenAlert now pid .HIGH todayEnergy median db
      else resolveLowGenAlert now pid db

/-- The dedup lookup of `checkOffline`:
`{ plant_id, type: 'OFFLINE', state: { in: ['NEW','ACKED'] } }`. -/
def offlineWhere (pid : String) (a : Alert) : Bool :=
  a.plant_id == pid && a.type == .OFFLINE && (a.state == .NEW || a.state == .ACKED)

/-- `checkOffline(plantId, lastSeenAt)` from monitoring-utils.ts. -/
def checkOffline (now lastSeenAt : Int) (pid : String) (db : DB) : DB :=
  let hours := hoursSince now lastSeenAt
  if hours > 24 then
    match db.alerts.find? (offlineWhere pid) with
    | some ex =>
      let alerts := updateAlertById db.alerts ex.id
        (fun a => { a with message := .offline ⌊hours⌋, last_seen_at := now })
      { db with alerts := alerts }
    | none =>
      let row : Alert :=
        { id := db.nextAlertId, plant_id := pid, type := .OFFLINE,
          severity := .CRITICAL, state := .NEW, vendor_alarm_code := none,
          device_sn := none, message := .offline ⌊hours⌋,
          occurred_at := now, cleared_at := none, last_seen_at := now }
      { db with alerts := db.alerts ++ [row], nextAlertId := db.nextAlertId + 1 }
  else
    match db.alerts.find? (offlineWhere pid) with
    | some ex =>
      let alerts := updateAlertById db.alerts ex.id
        (fun a => { a with state := .RESOLVED, cleared_at := some now })
      { db with alerts := alerts }
    | none => db

/-- The `prisma.metricSnapshot.upsert` of the executor: its key date is
`new Date(new Date().toISOString().split('T')[0])`, the UTC calendar date
of the wall clock.  The update branch does not touch `timezone`. -/
def upsertTodaySnapshot (now : Int) (pid : String)
    (summary : NormalizedPlantSummary) (db : DB) : DB :=
  let date := utcMidnight now
  if snapExists db.snapshots pid date then
    let snaps := db.snapshots.map (fun s =>
      if s.plant_id == pid && s.date == date then
        { s with today_energy_kwh := summary.todayEnergyKWh,
                 current_power_w := some summary.currentPowerW,
                 grid_injection_power_w := summary.gridInjectionPowerW,
                 total_energy_kwh := summary.totalEnergyKWh,
                 last_seen_at := summary.lastSeenAt,
                 source_sampled_at := summary.sourceSampledAt }
      else s)
    { db with snapshots := snaps }
  else
    let row : Snapshot :=
      { plant_id := pid, date := date, timezone := summary.timezone,
        today_energy_kwh := summary.todayEnergyKWh,
        current_power_w := some summary.currentPowerW,
        grid_injection_power_w := summary.gridInjectionPowerW,
        total_energy_kwh := summary.totalEnergyKWh,
        last_seen_at := summary.lastSeenAt,
        source_sampled_at := summary.sourceSampledAt }
    { db with snapshots := db.snapshots ++ [row] }

/-- The body of the worker's inner try block after the lock was acquired
(poll-worker.ts lines 67-137).  Returns the database after the run and the
error that escaped to the outer catch, if any. -/
def runPipeline (env : AdapterEnv) (now : Int) (pid : String) (db : DB) :
    DB × Option JsError :=
  match plantOf db pid with
  | none => (db, some { name := some "Error" })
  | some plant =>
    if plant.integration_status ≠ .ACTIVE then (db, none)
    else
      match env.summaryRes with
      | .error e => (db, some e)
      | .ok summary =>
        let db := upsertTodaySnapshot now pid summary db
        let db := updatePlantStatus now summary.lastSeenAt pid db
        let db := processAlarms now pid env.alarmsRes db
        let db := backfillMetrics now pid summary.timezone env.seriesRes db
        let db := checkLowGeneration now pid db
        let db := checkOffline now summary.lastSeenAt pid db
        (db, none)

/-- The whole process state a job touches: the database and the Redis keys. -/
structure World where
  db : DB
  locks : List String
deriving Repr

/-- `lock:plant:{plantId}`. -/
def lockKey (pid : String) : String := "lock:plant:" ++ pid

/-- The PollLog row written in the job's outer finally block. -/
def mkPollLog (pid : String) (st : PollStatus) (aet : Option String)
    (startTime now : Int) : PollLog :=
  { plant_id := pid, job_type := "POLL", status := st,
    duration_ms := now - startTime, adapter_error_type := aet,
    http_status := none, started_at := startTime, finished_at := now }

/-- Append a PollLog row. -/
def addLog (db : DB) (l : PollLog) : DB :=
  { db with pollLogs := db.pollLogs ++ [l] }

/-- One execution of the BullMQ job handler in `createPollWorker`
(poll-worker.ts lines 40-165): lock acquisition with the skip branch, the
pipeline, the outer catch that sets `pollStatus` and `adapterErrorType`,
the inner finally that deletes the lock and the outer finally that writes
the PollLog. -/
def runJob (env : AdapterEnv) (startTime now : Int) (pid : String)
    (w : World) : World :=
  let key := lockKey pid
  if w.locks.contains key then
    { w with db := addLog w.db (mkPollLog pid .SUCCESS none startTime now) }
  else
    let locks1 := key :: w.locks
    let res := runPipeline env now pid w.db
    let locks2 := locks1.erase key
    let st := match res.2 with
      | some _ => PollStatus.ERROR
      | none => PollStatus.SUCCESS
    let aet := match res.2 with
      | some e => e.name
      | none => none
    { db := addLog res.1 (mkPollLog pid st aet startTime now), locks := locks2 }

/-- `BaseMockAdapter` fixture alarm entry (`mockData.alarms[i]`). -/
structure FixtureAlarm where
  vendorAlarmCode : String
  deviceSn : Option String
  message : String
  occurredAt : Int
  isActive : Bool
  severity : Severity
deriving DecidableEq, Repr

/-- The `.map` step of `BaseMockAdapter.getAlarmsSince`. -/
def normalizeFixtureAlarm (a : FixtureAlarm) : NormalizedAlarm :=
  { vendorAlarmCode := a.vendorAlarmCode, deviceSn := a.deviceSn,
    message := a.message, occurredAt := a.occurredAt,
    isActive := a.isActive, severity := a.severity }

/-- `BaseMockAdapter.getAlarmsSince(ref, creds, since)`:
`alarms.filter(a => new Date(a.occurredAt) >= since).map(...)`. -/
def mockGetAlarmsSince (fixture : List FixtureAlarm) (since : Int) :
    List NormalizedAlarm :=
  (fixture.filter (fun a => decide (since ≤ a.occurredAt))).map normalizeFixtureAlarm

/-- The derived low-generation level named by the spec's StatusEvaluator. -/
inductive LowGenLevel
  | NONE | YELOW_LEVEL | RED_LEVEL
deriving DecidableEq, Repr

/-- Reference definition following the spec's words (§4.5, first match
wins; active CRITICAL alerts counted whether NEW or ACKED; 2.0 h belongs
to YELLOW and 24.0 h to RED, inclusive on the higher side). -/
def specStatusEvaluator (integrationActive : Bool) (hours : ℚ)
    (activeCritical : Bool) (lowGen : LowGenLevel) : PlantStatus :=
  if ¬integrationActive then .GREY
  else if activeCritical = true ∨ 24 ≤ hours ∨ lowGen = .RED_LEVEL then .RED
  else if 2 ≤ hours ∨ lowGen = .YELOW_LEVEL then .YELLOW
  else .GREEN

/-- Reference definition following the spec's words (I1, pipeline step 9):
the local calendar date of an instant in the plant's IANA timezone, here
instantiated with a fixed UTC offset in minutes (east positive). -/
def specLocalDay (offsetMin : Int) (t : Int) : Int :=
  (t + offsetMin * 60000).fdiv msPerDay

/-- An empty database. -/
def dbEmpty : DB :=
  { plants := [], snapshots := [], alerts := [], pollLogs := [], nextAlertId := 0 }

/-- A snapshot row with only the backfill-relevant fields populated. -/
def mkSnap (pid : String) (date : Int) (e : ℚ) : Snapshot :=
  { plant_id := pid, date := date, timezone := "America/Sao_Paulo",
    today_energy_kwh := e, current_power_w := none,
    grid_injection_power_w := none, total_energy_kwh := none,
    last_seen_at := date, source_sampled_at := date }

/-- An adapter environment in which every call throws `NetworkTimeoutError`. -/
def envFail : AdapterEnv :=
  { summaryRes := .error { name := some "NetworkTimeoutError" },
    alarmsRes := .error { name := some "NetworkTimeoutError" },
    seriesRes := fun _ _ => .error { name := some "NetworkTimeoutError" } }

/-- C1 inputs: a paused plant that is currently GREEN and has an active
CRITICAL alert. -/
def plantC1 : Plant :=
  { id := "p1", brand := "SOLIS", timezone := "America/Sao_Paulo",
    vendor_plant_id := none, integration_status := .PAUSED_AUTH_ERROR,
    status := .GREEN }

def alertC1 : Alert :=
  { id := 7, plant_id := "p1", type := .MOCK_FAULT, severity := .CRITICAL,
    state := .NEW, vendor_alarm_code := some "F1", device_sn := some "INV-1",
    message := .vendor "grid fault", occurred_at := 0, cleared_at := none,
    last_seen_at := 0 }

def wC1 : World :=
  { db := { dbEmpty with plants := [plantC1], alerts := [alertC1] }, locks := [] }

/-- C2 inputs: an ACTIVE plant whose only CRITICAL alert is ACKED. -/
def plantC2 : Plant :=
  { id := "p1", brand := "SOLIS", timezone := "America/Sao_Paulo",
    vendor_plant_id := none, integration_status := .ACTIVE, status := .GREEN }

def alertC2 : Alert :=
  { id := 3, plant_id := "p1", type := .MOCK_FAULT, severity := .CRITICAL,
    state := .ACKED, vendor_alarm_code := some "F2", device_sn := some "INV-1",
    message := .vendor "acked fault", occurred_at := 0, cleared_at := none,
    last_seen_at := 0 }

def dbC2 : DB := { dbEmpty with plants := [plantC2], alerts := [alertC2] }

/-- C3 failing input: 2026-02-18 is day 20502 since the epoch.  The wall
clock reads 2026-02-18T01:00:00Z while the plant timezone is
America/Sao_Paulo (UTC-3) and the summary was last seen
2026-02-17T22:00:00Z, i.e. on local day 2026-02-17. -/
def tC3now : Int := dayMs 20502 + msPerHour

def tC3seen : Int := dayMs 20501 + 22 * msPerHour

def summaryC3 : NormalizedPlantSummary :=
  { currentPowerW := 4500, todayEnergyKWh := 28.5, totalEnergyKWh := none,
    gridInjectionPowerW := none, lastSeenAt := tC3seen,
    sourceSampledAt := tC3seen, timezone := "America/Sao_Paulo" }

/-- C5/C9 inputs: a healthy ACTIVE plant, a noon wall clock and an
environment whose summary call succeeds while the alarm and series calls
throw. -/
def tC5 : Int := dayMs 1000 + 12 * msPerHour

def summaryC5 : NormalizedPlantSummary :=
  { currentPowerW := 4500, todayEnergyKWh := 10, totalEnergyKWh := none,
    gridInjectionPowerW := none, lastSeenAt := tC5 - msPerHour,
    sourceSampledAt := tC5 - msPerHour, timezone := "America/Sao_Paulo" }

def plantActive : Plant :=
  { id := "p1", brand := "SOLIS", timezone := "America/Sao_Paulo",
    vendor_plant_id := none, integration_status := .ACTIVE, status := .GREEN }

def wActive : World := { db := { dbEmpty with plants := [plantActive] }, locks := [] }

def envC5 : AdapterEnv :=
  { summaryRes := .ok summaryC5,
    alarmsRes := .error { name := some "NetworkTimeoutError" },
    seriesRes := fun _ _ => .error { name := some "NetworkTimeoutError" } }

/-- C6 inputs: an existing NEW alert of severity MEDIUM and a matching
active alarm of severity HIGH with a different message. -/
def alertC6 : Alert :=
  { id := 11, plant_id := "p1", type := .MOCK_FAULT, severity := .MEDIUM,
    state := .NEW, vendor_alarm_code := some "GRID_FAULT_001",
    device_sn := some "INV-1", message := .vendor "old", occurred_at := 100,
    cleared_at := none, last_seen_at := 100 }

def alarmC6 : NormalizedAlarm :=
  { vendorAlarmCode := "GRID_FAULT_001", deviceSn := some "INV-1",
    message := "new", occurredAt := 400, isActive := true, severity := .HIGH }

def dbC6 : DB := { dbEmpty with alerts := [alertC6], nextAlertId := 12 }

/-- C7 inputs: only two snapshots strictly before today plus today's own
snapshot; today's energy is far below the window median. -/
def tC7 : Int := dayMs 1000 + 12 * msPerHour

def snapsC7 : List Snapshot :=
  [mkSnap "p1" (dayMs 998) 30, mkSnap "p1" (dayMs 999) 32,
   mkSnap "p1" (dayMs 1000) 1]

def dbC7 : DB := { dbEmpty with snapshots := snapsC7 }

/-- C7 witness inputs for the HIGH branch: today's energy is between 10
and 30 percent of the window median while a CRITICAL LOW_GENERATION
alert is open, exhibiting the severity overwrite (downgrade). -/
def alertC7H : Alert :=
  { id := 6, plant_id := "p1", type := .LOW_GENERATION, severity := .CRITICAL,
    state := .ACKED, vendor_alarm_code := none, device_sn := none,
    message := .lowGen 1 30, occurred_at := 40, cleared_at := none,
    last_seen_at := 40 }

def snapsC7H : List Snapshot :=
  [mkSnap "p1" (dayMs 998) 30, mkSnap "p1" (dayMs 999) 32,
   mkSnap "p1" (dayMs 1000) 8]

def dbC7H : DB :=
  { dbEmpty with snapshots := snapsC7H, alerts := [alertC7H], nextAlertId := 7 }

/-- C7 witness inputs: a healthy day with an open LOW_GENERATION alert. -/
def alertC7R : Alert :=
  { id := 4, plant_id := "p1", type := .LOW_GENERATION, severity := .HIGH,
    state := .NEW, vendor_alarm_code := none, device_sn := none,
    message := .lowGen 2 30, occurred_at := 50, cleared_at := none,
    last_seen_at := 50 }

def snapsC7R : List Snapshot :=
  [mkSnap "p1" (dayMs 998) 30, mkSnap "p1" (dayMs 999) 32,
   mkSnap "p1" (dayMs 1000) 31]

def dbC7R : DB :=
  { dbEmpty with snapshots := snapsC7R, alerts := [alertC7R], nextAlertId := 5 }

/-- C8 witness inputs. -/
def seriesC8 : Int → Int → Except JsError (List SeriesPoint) :=
  fun _ _ => .ok [{ day := 999, energyKWh := 5 }]

/-- C9 input: the plant lock is already held by another executor. -/
def wLocked : World :=
  { db := { dbEmpty with plants := [plantActive] }, locks := [lockKey "p1"] }

/-- C10 inputs: an old still-active fixture alarm and a recent one. -/
def faOld : FixtureAlarm :=
  { vendorAlarmCode := "A1", deviceSn := some "INV-1", message := "old alarm",
    occurredAt := 0, isActive := true, severity := .HIGH }

def faNew : FixtureAlarm :=
  { vendorAlarmCode := "A2", deviceSn := some "INV-2", message := "new alarm",
    occurredAt := 90 * msPerHour, isActive := false, severity := .LOW }

def tC10 : Int := 100 * msPerHour

theorem hoursSince_eq_div (now t : Int) :
    hoursSince now t = ((now - t : Int) : ℚ) / (1000 * 60 * 60) := by
  rw [hoursSince, Rat.divInt_eq_div]
  norm_num

theorem mulTenths_eq (k : Int) (q : ℚ) : mulTenths k q = q * ((k : ℚ) / 10) := by
  have hd : ((q.den : ℚ)) ≠ 0 := by
    exact_mod_cast q.den_nz
  rw [mulTenths, Rat.divInt_eq_div]
  conv_rhs => rw [← Rat.num_div_den q]
  push_cast
  field_simp
  ring

theorem pollLogs_upsertTodaySnapshot (now : Int) (pid : String)
    (s : NormalizedPlantSummary) (db : DB) :
    (upsertTodaySnapshot now pid s db).pollLogs = db.pollLogs := by
  simp only [upsertTodaySnapshot]
  split <;> rfl

theorem pollLogs_updatePlantStatus (now lastSeenAt : Int) (pid : String) (db : DB) :
    (updatePlantStatus now lastSeenAt pid db).pollLogs = db.pollLogs := by
  simp only [updatePlantStatus]
  split
  · rfl
  · split <;> rfl

theorem pollLogs_processOneAlarm (now : Int) (pid : String)
    (alarm : NormalizedAlarm) (db : DB) :
    (processOneAlarm now pid alarm db).pollLogs = db.pollLogs := by
  simp only [processOneAlarm]
  repeat' split
  all_goals rfl

theorem pollLogs_processAlarms (now : Int) (pid : String)
    (res : Except JsError (List NormalizedAlarm)) (db : DB) :
    (processAlarms now pid res db).pollLogs = db.pollLogs := by
  cases res with
  | error e => rfl
  | ok alarms =>
    simp only [processAlarms]
    induction alarms generalizing db with
    | nil => rfl
    | cons a rest ih =>
      rw [List.foldl_cons, ih, pollLogs_processOneAlarm]

theorem pollLogs_backfillInsertLoop (now : Int) (pid tz : String)
    (exDates : List Int) (pts : List SeriesPoint) (db : DB) :
    (backfillInsertLoop now pid tz exDates pts db).pollLogs = db.pollLogs := by
  induction pts generalizing db with
  | nil => rfl
  | cons p rest ih =>
    simp only [backfillInsertLoop]
    split
    · exact ih db
    · split
      · rfl
      · rw [ih]

theorem pollLogs_backfillMetrics (now : Int) (pid tz : String)
    (series : Int → Int → Except JsError (List SeriesPoint)) (db : DB) :
    (backfillMetrics now pid tz series db).pollLogs = db.pollLogs := by
  simp only [backfillMetrics]
  split
  · rfl
  · split
    · rfl
    · rw [pollLogs_backfillInsertLoop]

theorem pollLogs_createOrUpdateLowGenAlert (now : Int) (pid : String)
    (sev : Severity) (t m : ℚ) (db : DB) :
    (createOrUpdateLowGenAlert now pid sev t m db).pollLogs = db.pollLogs := by
  simp only [createOrUpdateLowGenAlert]
  split <;> rfl

theorem pollLogs_resolveLowGenAlert (now : Int) (pid : String) (db : DB) :
    (resolveLowGenAlert now pid db).pollLogs = db.pollLogs := by
  simp only [resolveLowGenAlert]
  split <;> rfl

theorem pollLogs_checkLowGeneration (now : Int) (pid : String) (db : DB) :
    (checkLowGeneration now pid db).pollLogs = db.pollLogs := by
  simp only [checkLowGeneration]
  split
  · rfl
  · split
    · rfl
    · split
      · rw [pollLogs_createOrUpdateLowGenAlert]
      · split
        · rw [pollLogs_createOrUpdateLowGenAlert]
        · rw [pollLogs_resolveLowGenAlert]

theorem pollLogs_checkOffline (now lastSeenAt : Int) (pid : String) (db : DB) :
    (checkOffline now lastSeenAt pid db).pollLogs = db.pollLogs := by
  simp only [checkOffline]
  split
  · split <;> rfl
  · split <;> rfl

theorem pollLogs_runPipeline (env : AdapterEnv) (now : Int) (pid : String) (db : DB) :
    (runPipeline env now pid db).1.pollLogs = db.pollLogs := by
  simp only [runPipeline]
  split
  · rfl
  · split
    · rfl
    · split
      · rfl
      · rw [pollLogs_checkOffline, pollLogs_checkLowGeneration,
          pollLogs_backfillMetrics, pollLogs_processAlarms,
          pollLogs_updatePlantStatus, pollLogs_upsertTodaySnapshot]

/-- C1 (counterexample): an executor run over a plant whose
integration_status is PAUSED_AUTH_ERROR, with an active CRITICAL alert,
leaves the persisted status GREEN — not GREY as the claim requires. -/
theorem C1_counterexample :
    (plantOf (runJob envFail 0 1000 "p1" wC1).db "p1").map Plant.status =
      some .GREEN ∧
    (plantOf (runJob envFail 0 1000 "p1" wC1).db "p1").map
      Plant.integration_status = some .PAUSED_AUTH_ERROR ∧
    0 < ((runJob envFail 0 1000 "p1" wC1).db.alerts.filter
      (redAlertWhere "p1")).length ∧
    some PlantStatus.GREEN ≠ some PlantStatus.GREY := by decide

/-- C1 (amended): an executor run over a plant whose integration_status is
not ACTIVE takes the skip branch and leaves every plant row — in
particular the persisted status — unchanged; and the status computation
itself maps a non-ACTIVE plant to GREY only when no NEW CRITICAL alert
exists, overriding to RED otherwise. -/
theorem C1_theorem :
    (∀ env startTime now pid w p, plantOf w.db pid = some p →
        p.integration_status ≠ .ACTIVE →
        (runJob env startTime now pid w).db.plants = w.db.plants) ∧
    (∀ (h : ℚ) (redAlerts : Nat),
        computePlantStatus false h redAlerts =
          if 0 < redAlerts then .RED else .GREY) := by
  constructor
  · intro env startTime now pid w p hp hact
    by_cases hl : lockKey pid ∈ w.locks
    · simp [runJob, hl, addLog]
    · simp [runJob, hl, addLog, runPipeline, hp, hact]
  · intro h r
    simp [computePlantStatus]

/-- C1 (witness for the amended theorem). -/
theorem C1_witness :
    (runJob envFail 0 1000 "p1" wC1).db.plants = wC1.db.plants ∧
    computePlantStatus false 3 1 = (if 0 < 1 then PlantStatus.RED else .GREY) :=
  ⟨C1_theorem.1 envFail 0 1000 "p1" wC1 plantC1 rfl (by decide), C1_theorem.2 3 1⟩

/-- C2 (counterexample): at exactly 24.0 hours since last_seen_at with no
alerts, the code computes YELLOW while the claimed reference algorithm
computes RED. -/
theorem C2_counterexample :
    computePlantStatus true 24 0 = .YELLOW ∧
    specStatusEvaluator true 24 false .NONE = .RED := by decide

/-- C2 (amended): for an ACTIVE plant the code's evaluation equals the
first-match algorithm that returns RED on a positive count of NEW (not
ACKED) CRITICAL alerts, RED strictly above 24 h, YELLOW strictly above
2 h, GREEN otherwise; in particular exactly 24.0 h gives YELLOW, exactly
2.0 h gives GREEN, and an ACKED CRITICAL alert leaves a fresh plant
GREEN.  The low-generation level is not an input. -/
theorem C2_theorem :
    (∀ (h : ℚ) (redAlerts : Nat),
        computePlantStatus true h redAlerts =
          if 0 < redAlerts then .RED
          else if 24 < h then .RED
          else if 2 < h then .YELLOW
          else .GREEN) ∧
    computePlantStatus true 24 0 = .YELLOW ∧
    computePlantStatus true 2 0 = .GREEN ∧
    (updatePlantStatus 0 0 "p1" dbC2).plants.map Plant.status = [.GREEN] := by
  refine ⟨?_, by decide, by decide, by decide⟩
  intro h r
  simp [computePlantStatus]

/-- C3 (code bug, evaluated at the failing input): at wall clock
2026-02-18T01:00:00Z (day 20502) the upsert keys the snapshot by the UTC
calendar date of the clock, 2026-02-18, while the local calendar date of
summary.lastSeenAt in the plant's America/Sao_Paulo timezone (UTC-3) is
2026-02-17 (day 20501). -/
theorem C3_theorem :
    ((upsertTodaySnapshot tC3now "p1" summaryC3 dbEmpty).snapshots.map
      Snapshot.date) = [dayMs 20502] ∧
    utcDay tC3now = 20502 ∧
    specLocalDay (-180) summaryC3.lastSeenAt = 20501 ∧
    (20502 : Int) ≠ 20501 := by decide

/-- C4: every started job appends exactly one PollLog row, whose status is
SUCCESS or ERROR — on the lock-skip path, the success path and the error
path alike. -/
theorem C4_theorem :
    ∀ env startTime now pid w, ∃ l,
      (runJob env startTime now pid w).db.pollLogs = w.db.pollLogs ++ [l] ∧
      (l.status = .SUCCESS ∨ l.status = .ERROR) := by
  intro env startTime now pid w
  by_cases hl : lockKey pid ∈ w.locks
  · exact ⟨mkPollLog pid .SUCCESS none startTime now,
      by simp [runJob, hl, addLog], Or.inl rfl⟩
  · cases hres : (runPipeline env now pid w.db).2 with
    | none =>
      refine ⟨mkPollLog pid .SUCCESS none startTime now, ?_, Or.inl rfl⟩
      simp [runJob, hl, hres, addLog, pollLogs_runPipeline]
    | some e =>
      refine ⟨mkPollLog pid .ERROR e.name startTime now, ?_, Or.inr rfl⟩
      simp [runJob, hl, hres, addLog, pollLogs_runPipeline]

/-- C5 (counterexample): a failure raised inside alarm processing (the
getAlarmsSince call throws) still ends the run with a SUCCESS PollLog,
because processAlarms swallows its own errors. -/
theorem C5_counterexample :
    ((runJob envC5 0 tC5 "p1" wActive).db.pollLogs.map PollLog.status =
      [.SUCCESS]) ∧
    envC5.alarmsRes = .error { name := some "NetworkTimeoutError" } := by
  exact ⟨rfl, rfl⟩

/-- C5 (amended): a failure of the summary fetch propagates — the lock is
released and the PollLog has status ERROR with adapter_error_type the
error's name; but once the summary fetch succeeds for a found ACTIVE
plant, the run always logs SUCCESS, even when the alarm, series or any
derivation step fails, because those steps catch their own errors. -/
theorem C5_theorem :
    (∀ env startTime now pid w e p,
        w.locks.contains (lockKey pid) = false →
        plantOf w.db pid = some p → p.integration_status = .ACTIVE →
        env.summaryRes = .error e →
        (runJob env startTime now pid w).db.pollLogs =
          w.db.pollLogs ++ [mkPollLog pid .ERROR e.name startTime now] ∧
        (runJob env startTime now pid w).locks = w.locks) ∧
    (∀ env startTime now pid w p s,
        plantOf w.db pid = some p → p.integration_status = .ACTIVE →
        env.summaryRes = .ok s →
        ∃ l, (runJob env startTime now pid w).db.pollLogs =
          w.db.pollLogs ++ [l] ∧ l.status = .SUCCESS) := by
  constructor
  · intro env startTime now pid w e p hl hp hact hsum
    have hm : lockKey pid ∉ w.locks := by simpa using hl
    constructor
    · simp [runJob, hm, addLog, runPipeline, hp, hact, hsum, mkPollLog]
    · simp [runJob, hm, runPipeline, hp, hact, hsum]
  · intro env startTime now pid w p s hp hact hsum
    by_cases hl : lockKey pid ∈ w.locks
    · exact ⟨mkPollLog pid .SUCCESS none startTime now,
        by simp [runJob, hl, addLog], rfl⟩
    · refine ⟨mkPollLog pid .SUCCESS none startTime now, ?_, rfl⟩
      have h2 : (runPipeline env now pid w.db).2 = none := by
        simp [runPipeline, hp, hact, hsum]
      simp [runJob, hl, h2, addLog, pollLogs_runPipeline]

/-- C5 (witness for the amended theorem). -/
theorem C5_witness :
    ((runJob envFail 0 5 "p1" wActive).db.pollLogs =
      wActive.db.pollLogs ++
        [mkPollLog "p1" .ERROR (some "NetworkTimeoutError") 0 5] ∧
      (runJob envFail 0 5 "p1" wActive).locks = wActive.locks) ∧
    (∃ l, (runJob envC5 0 tC5 "p1" wActive).db.pollLogs =
      wActive.db.pollLogs ++ [l] ∧ l.status = .SUCCESS) :=
  ⟨C5_theorem.1 envFail 0 5 "p1" wActive
      { name := some "NetworkTimeoutError" } plantActive rfl rfl rfl rfl,
    C5_theorem.2 envC5 0 tC5 "p1" wActive plantActive summaryC5 rfl rfl rfl⟩

/-- C6 (counterexample): an active alarm of severity HIGH matching an
existing NEW alert of severity MEDIUM leaves severity MEDIUM and the old
message in place; only last_seen_at is touched. -/
theorem C6_counterexample :
    ((processOneAlarm 500 "p1" alarmC6 dbC6).alerts.map Alert.severity =
      [.MEDIUM]) ∧
    ((processOneAlarm 500 "p1" alarmC6 dbC6).alerts.map Alert.message =
      [.vendor "old"]) ∧
    ((processOneAlarm 500 "p1" alarmC6 dbC6).alerts.map Alert.last_seen_at =
      [500]) ∧
    alarmC6.severity = .HIGH ∧ alarmC6.isActive = true ∧
    alarmC6.message = "new" ∧
    dbC6.alerts.find? (alarmWhereMatch "p1" alarmC6) = some alertC6 ∧
    Severity.MEDIUM ≠ Severity.HIGH := by decide

/-- C6 (amended): when an adapter-reported alarm with isActive = true
matches an existing NEW/ACKED alert on the dedup key, the reconciler only
sets last_seen_at := now on the matched row — severity and message are
left unchanged — and creates no new alert row. -/
theorem C6_theorem :
    ∀ now pid alarm db ex,
      db.alerts.find? (alarmWhereMatch pid alarm) = some ex →
      alarm.isActive = true →
      (processOneAlarm now pid alarm db).alerts =
        db.alerts.map (fun a =>
          if a.id == ex.id then { a with last_seen_at := now } else a) ∧
      (processOneAlarm now pid alarm db).alerts.length = db.alerts.length ∧
      ∀ a ∈ db.alerts, a.id ≠ ex.id →
        a ∈ (processOneAlarm now pid alarm db).alerts := by
  intro now pid alarm db ex hfind hact
  have hpa : (processOneAlarm now pid alarm db).alerts =
      db.alerts.map (fun a =>
        if a.id == ex.id then { a with last_seen_at := now } else a) := by
    simp [processOneAlarm, hfind, hact, updateAlertById]
  refine ⟨hpa, ?_, ?_⟩
  · rw [hpa, List.length_map]
  · intro a ha hne
    rw [hpa]
    refine List.mem_map.mpr ⟨a, ha, ?_⟩
    simp [hne]

/-- C6 (witness for the amended theorem). -/
theorem C6_witness :
    (processOneAlarm 500 "p1" alarmC6 dbC6).alerts =
      dbC6.alerts.map (fun a =>
        if a.id == alertC6.id then { a with last_seen_at := 500 } else a) ∧
    (processOneAlarm 500 "p1" alarmC6 dbC6).alerts.length =
      dbC6.alerts.length ∧
    ∀ a ∈ dbC6.alerts, a.id ≠ alertC6.id →
      a ∈ (processOneAlarm 500 "p1" alarmC6 dbC6).alerts :=
  C6_theorem 500 "p1" alarmC6 dbC6 alertC6 (by decide) rfl

/-- Helper: createOrUpdateLowGenAlert always leaves an active (NEW or
ACKED) LOW_GENERATION alert of the requested severity for the plant. -/
theorem createOrUpdateLowGenAlert_mem (now : Int) (pid : String)
    (sev : Severity) (t m : ℚ) (db : DB) :
    ∃ a ∈ (createOrUpdateLowGenAlert now pid sev t m db).alerts,
      a.plant_id = pid ∧ a.type = .LOW_GENERATION ∧ a.severity = sev ∧
        (a.state = .NEW ∨ a.state = .ACKED) := by
  cases hf : db.alerts.find? (lowGenWhere pid) with
  | none =>
    refine ⟨{ id := db.nextAlertId, plant_id := pid, type := .LOW_GENERATION,
              severity := sev, state := .NEW, vendor_alarm_code := none,
              device_sn := none, message := .lowGen t m, occurred_at := now,
              cleared_at := none, last_seen_at := now },
      ?_, rfl, rfl, rfl, Or.inl rfl⟩
    simp [createOrUpdateLowGenAlert, hf]
  | some ex =>
    have hmem := List.mem_of_find?_eq_some hf
    have hwhere := List.find?_some hf
    simp only [lowGenWhere, Bool.and_eq_true, Bool.or_eq_true, beq_iff_eq] at hwhere
    refine ⟨{ ex with severity := sev, message := .lowGen t m,
                      last_seen_at := now },
      ?_, hwhere.1.1, hwhere.1.2, rfl, hwhere.2⟩
    simp only [createOrUpdateLowGenAlert, hf, updateAlertById]
    exact List.mem_map.mpr ⟨ex, hmem, by simp⟩

/-- Helper: resolveLowGenAlert resolves the first matching active
LOW_GENERATION alert. -/
theorem resolveLowGenAlert_mem (now : Int) (pid : String) (db : DB)
    (ex : Alert) (hf : db.alerts.find? (lowGenWhere pid) = some ex) :
    ∃ a ∈ (resolveLowGenAlert now pid db).alerts,
      a.id = ex.id ∧ a.state = .RESOLVED ∧ a.cleared_at = some now := by
  have hmem := List.mem_of_find?_eq_some hf
  refine ⟨{ ex with state := .RESOLVED, cleared_at := some now },
    ?_, rfl, rfl, rfl⟩
  simp only [resolveLowGenAlert, hf, updateAlertById]
  exact List.mem_map.mpr ⟨ex, hmem, by simp⟩

/-- C7 (counterexample): with only two snapshots strictly before today
plus today's snapshot, the claim demands no change (fewer than 3
historical points), but the code counts today's snapshot inside its
window, computes the median over it and creates a CRITICAL LOW_GENERATION
alert. -/
theorem C7_counterexample :
    ((checkLowGeneration tC7 "p1" dbC7).alerts.map
      (fun a => (a.type, a.severity, a.state)) =
      [(.LOW_GENERATION, .CRITICAL, .NEW)]) ∧
    (dbC7.snapshots.filter (fun s => decide (s.date < utcMidnight tC7))).length
      = 2 ∧
    dbC7.alerts = [] := by decide

/-- C7 (amended): the window is the up-to-7 most recent snapshots with
date in [now − 7 d, now) — which includes today's snapshot once now is
past midnight — and at least 3 snapshots of that window (today's
included) are required; the median is the element at index ⌊n/2⌋ of the
ascending sort; below 10 percent of it a LOW_GENERATION alert is
created or updated with severity CRITICAL, from 10 up to below 30
percent with severity HIGH — an existing active alert's severity is
overwritten to HIGH even when it was CRITICAL — and otherwise the first
active LOW_GENERATION alert is resolved. -/
theorem C7_theorem :
    ∀ now pid db,
      ((lowGenWindow now pid db).length < 3 →
        checkLowGeneration now pid db = db) ∧
      (∀ ts, 3 ≤ (lowGenWindow now pid db).length →
        todaySnapshotOf now pid db = some ts →
        ts.today_energy_kwh <
          mulTenths 1 (lowGenMedian (lowGenWindow now pid db)) →
        ∃ a ∈ (checkLowGeneration now pid db).alerts,
          a.plant_id = pid ∧ a.type = .LOW_GENERATION ∧
            a.severity = .CRITICAL ∧ (a.state = .NEW ∨ a.state = .ACKED)) ∧
      (∀ ts, 3 ≤ (lowGenWindow now pid db).length →
        todaySnapshotOf now pid db = some ts →
        ¬ ts.today_energy_kwh <
          mulTenths 1 (lowGenMedian (lowGenWindow now pid db)) →
        ts.today_energy_kwh <
          mulTenths 3 (lowGenMedian (lowGenWindow now pid db)) →
        ∃ a ∈ (checkLowGeneration now pid db).alerts,
          a.plant_id = pid ∧ a.type = .LOW_GENERATION ∧
            a.severity = .HIGH ∧ (a.state = .NEW ∨ a.state = .ACKED)) ∧
      (∀ ts ex, 3 ≤ (lowGenWindow now pid db).length →
        todaySnapshotOf now pid db = some ts →
        ¬ ts.today_energy_kwh <
          mulTenths 1 (lowGenMedian (lowGenWindow now pid db)) →
        ts.today_energy_kwh <
          mulTenths 3 (lowGenMedian (lowGenWindow now pid db)) →
        db.alerts.find? (lowGenWhere pid) = some ex →
        { ex with severity := .HIGH,
                  message := .lowGen ts.today_energy_kwh
                    (lowGenMedian (lowGenWindow now pid db)),
                  last_seen_at := now } ∈
          (checkLowGeneration now pid db).alerts) ∧
      (∀ ts ex, 3 ≤ (lowGenWindow now pid db).length →
        todaySnapshotOf now pid db = some ts →
        0 ≤ lowGenMedian (lowGenWindow now pid db) →
        mulTenths 3 (lowGenMedian (lowGenWindow now pid db)) ≤
          ts.today_energy_kwh →
        db.alerts.find? (lowGenWhere pid) = some ex →
        ∃ a ∈ (checkLowGeneration now pid db).alerts,
          a.id = ex.id ∧ a.state = .RESOLVED ∧ a.cleared_at = some now) := by
  intro now pid db
  refine ⟨?_, ?_, ?_, ?_, ?_⟩
  · intro hlen
    simp [checkLowGeneration, hlen]
  · intro ts h3 hts hlt
    have hnot : ¬ (lowGenWindow now pid db).length < 3 := not_lt.mpr h3
    simpa [checkLowGeneration, hnot, hts, hlt] using
      createOrUpdateLowGenAlert_mem now pid .CRITICAL ts.today_energy_kwh
        (lowGenMedian (lowGenWindow now pid db)) db
  · intro ts h3 hts hge10 hlt30
    have hnot : ¬ (lowGenWindow now pid db).length < 3 := not_lt.mpr h3
    simpa [checkLowGeneration, hnot, hts, hge10, hlt30] using
      createOrUpdateLowGenAlert_mem now pid .HIGH ts.today_energy_kwh
        (lowGenMedian (lowGenWindow now pid db)) db
  · intro ts ex h3 hts hge10 hlt30 hf
    have hnot : ¬ (lowGenWindow now pid db).length < 3 := not_lt.mpr h3
    have hmem := List.mem_of_find?_eq_some hf
    have hgoal : { ex with severity := .HIGH,
                           message := .lowGen ts.today_energy_kwh
                             (lowGenMedian (lowGenWindow now pid db)),
                           last_seen_at := now } ∈
        (createOrUpdateLowGenAlert now pid .HIGH ts.today_energy_kwh
          (lowGenMedian (lowGenWindow now pid db)) db).alerts := by
      simp only [createOrUpdateLowGenAlert, hf, updateAlertById]
      exact List.mem_map.mpr ⟨ex, hmem, by simp⟩
    simpa [checkLowGeneration, hnot, hts, hge10, hlt30] using hgoal
  · intro ts ex h3 hts hm hge hf
    have hnot : ¬ (lowGenWindow now pid db).length < 3 := not_lt.mpr h3
    have hk : mulTenths 1 (lowGenMedian (lowGenWindow now pid db)) ≤
        mulTenths 3 (lowGenMedian (lowGenWindow now pid db)) := by
      rw [mulTenths_eq, mulTenths_eq]
      have h13 : ((1 : ℚ) / 10) ≤ ((3 : ℚ) / 10) := by norm_num
      exact mul_le_mul_of_nonneg_left h13 hm
    have hge10 : ¬ ts.today_energy_kwh <
        mulTenths 1 (lowGenMedian (lowGenWindow now pid db)) :=
      not_lt.mpr (le_trans hk hge)
    have hge30 : ¬ ts.today_energy_kwh <
        mulTenths 3 (lowGenMedian (lowGenWindow now pid db)) :=
      not_lt.mpr hge
    simpa [checkLowGeneration, hnot, hts, hge10, hge30] using
      resolveLowGenAlert_mem now pid db ex hf

/-- C7 (witness for the amended theorem). -/
theorem C7_witness :
    (checkLowGeneration tC7 "p1" dbEmpty = dbEmpty) ∧
    (∃ a ∈ (checkLowGeneration tC7 "p1" dbC7).alerts,
      a.plant_id = "p1" ∧ a.type = .LOW_GENERATION ∧
        a.severity = .CRITICAL ∧ (a.state = .NEW ∨ a.state = .ACKED)) ∧
    (∃ a ∈ (checkLowGeneration tC7 "p1" dbC7H).alerts,
      a.plant_id = "p1" ∧ a.type = .LOW_GENERATION ∧
        a.severity = .HIGH ∧ (a.state = .NEW ∨ a.state = .ACKED)) ∧
    ({ alertC7H with severity := .HIGH,
                     message := .lowGen 8
                       (lowGenMedian (lowGenWindow tC7 "p1" dbC7H)),
                     last_seen_at := tC7 } ∈
      (checkLowGeneration tC7 "p1" dbC7H).alerts) ∧
    (∃ a ∈ (checkLowGeneration tC7 "p1" dbC7R).alerts,
      a.id = alertC7R.id ∧ a.state = .RESOLVED ∧ a.cleared_at = some tC7) :=
  ⟨(C7_theorem tC7 "p1" dbEmpty).1 (by decide),
   (C7_theorem tC7 "p1" dbC7).2.1 (mkSnap "p1" (dayMs 1000) 1)
     (by decide) (by decide) (by decide),
   (C7_theorem tC7 "p1" dbC7H).2.2.1 (mkSnap "p1" (dayMs 1000) 8)
     (by decide) (by decide) (by decide) (by decide),
   (C7_theorem tC7 "p1" dbC7H).2.2.2.1 (mkSnap "p1" (dayMs 1000) 8) alertC7H
     (by decide) (by decide) (by decide) (by decide) (by decide),
   (C7_theorem tC7 "p1" dbC7R).2.2.2.2 (mkSnap "p1" (dayMs 1000) 31) alertC7R
     (by decide) (by decide) (by decide) (by decide) (by decide)⟩

/-- Helper: absence of a (plant, date) key, spelled out. -/
theorem snapExists_eq_false_iff (snaps : List Snapshot) (pid : String)
    (d : Int) :
    snapExists snaps pid d = false ↔
      ∀ s0 ∈ snaps, ¬(s0.plant_id = pid ∧ s0.date = d) := by
  rw [snapExists, List.any_eq_false]
  constructor
  · intro h s0 hs0 hc
    exact h s0 hs0 (by simp [hc.1, hc.2])
  · intro h s0 hs0 hc
    simp only [Bool.and_eq_true, beq_iff_eq] at hc
    exact h s0 hs0 hc

/-- Helper: the backfill insert loop only appends rows built by
backfillRow for dates that had no snapshot before the sweep. -/
theorem backfillInsertLoop_frame (now : Int) (pid tz : String)
    (exDates : List Int) :
    ∀ pts db, ∃ added,
      (backfillInsertLoop now pid tz exDates pts db).snapshots =
        db.snapshots ++ added ∧
      ∀ s ∈ added, snapExists db.snapshots pid s.date = false ∧
        ∃ p ∈ pts, s = backfillRow now pid tz p := by
  intro pts
  induction pts with
  | nil => intro db; exact ⟨[], by simp [backfillInsertLoop], by simp⟩
  | cons p rest ih =>
    intro db
    simp only [backfillInsertLoop]
    split
    · obtain ⟨added, h1, h2⟩ := ih db
      refine ⟨added, h1, fun s hs => ⟨(h2 s hs).1, ?_⟩⟩
      obtain ⟨q, hq, hsq⟩ := (h2 s hs).2
      exact ⟨q, List.mem_cons_of_mem _ hq, hsq⟩
    · split
      · exact ⟨[], by simp, by simp⟩
      · rename_i hcon hex
        obtain ⟨added, h1, h2⟩ :=
          ih { db with snapshots := db.snapshots ++ [backfillRow now pid tz p] }
        refine ⟨backfillRow now pid tz p :: added, ?_, ?_⟩
        · rw [h1]; simp
        · intro s hs
          rcases List.mem_cons.mp hs with hsp | hsa
          · subst hsp
            refine ⟨?_, p, List.mem_cons_self _ _, rfl⟩
            simpa [backfillRow] using hex
          · obtain ⟨hnex, q, hq, hsq⟩ := h2 s hsa
            refine ⟨?_, q, List.mem_cons_of_mem _ hq, hsq⟩
            simp only [snapExists, List.any_append, Bool.or_eq_false_iff]
              at hnex
            exact hnex.1

/-- C8: the backfill sweep only appends snapshot rows; every pre-existing
row is left unchanged (the list of old rows is a prefix of the new list),
and every appended row is for this plant, carries
last_seen_at = source_sampled_at = now, has a (plant, date) key that had
no row before the sweep, and takes its date and today_energy_kwh from a
point of the series the adapter returned. -/
theorem C8_theorem :
    ∀ now pid tz series db, ∃ added,
      (backfillMetrics now pid tz series db).snapshots =
        db.snapshots ++ added ∧
      ∀ s ∈ added, s.plant_id = pid ∧ s.last_seen_at = now ∧
        s.source_sampled_at = now ∧
        (∀ s0 ∈ db.snapshots, ¬(s0.plant_id = pid ∧ s0.date = s.date)) ∧
        ∃ d0 d1 pts, series d0 d1 = .ok pts ∧ ∃ p ∈ pts,
          s.date = dayMs p.day ∧ s.today_energy_kwh = p.energyKWh := by
  intro now pid tz series db
  simp only [backfillMetrics]
  split
  · exact ⟨[], by simp, by simp⟩
  · split
    · exact ⟨[], by simp, by simp⟩
    · rename_i points hser
      obtain ⟨added, h1, h2⟩ :=
        backfillInsertLoop_frame now pid tz _ points db
      refine ⟨added, h1, ?_⟩
      intro s hs
      obtain ⟨hnex, q, hq, hsq⟩ := h2 s hs
      subst hsq
      refine ⟨rfl, rfl, rfl, ?_, ?_⟩
      · exact (snapExists_eq_false_iff db.snapshots pid _).mp hnex
      · exact ⟨_, _, points, hser, q, hq, rfl, rfl⟩

/-- C8 (witness for the frame theorem). -/
theorem C8_witness :
    ∃ added,
      (backfillMetrics tC7 "p1" "America/Sao_Paulo" seriesC8 dbEmpty).snapshots
        = dbEmpty.snapshots ++ added ∧
      ∀ s ∈ added, s.plant_id = "p1" ∧ s.last_seen_at = tC7 ∧
        s.source_sampled_at = tC7 ∧
        (∀ s0 ∈ dbEmpty.snapshots, ¬(s0.plant_id = "p1" ∧ s0.date = s.date)) ∧
        ∃ d0 d1 pts, seriesC8 d0 d1 = .ok pts ∧ ∃ p ∈ pts,
          s.date = dayMs p.day ∧ s.today_energy_kwh = p.energyKWh :=
  C8_theorem tC7 "p1" "America/Sao_Paulo" seriesC8 dbEmpty

/-- C9 (counterexample): on the lock-skip path the PollLog row has
status SUCCESS but adapter_error_type null, not LOCK_SKIPPED. -/
theorem C9_counterexample :
    ((runJob envFail 0 9 "p1" wLocked).db.pollLogs.map
      (fun l => (l.status, l.adapter_error_type))) = [(.SUCCESS, none)] ∧
    (some "LOCK_SKIPPED" : Option String) ≠ none := by decide

/-- C9 (amended): when the lock is already held, the run is independent
of the adapter environment (no adapter call can influence it), changes no
plant, snapshot or alert row, leaves the lock set unchanged, and appends
one PollLog with status SUCCESS and adapter_error_type null. -/
theorem C9_theorem :
    ∀ env env2 startTime now pid w,
      lockKey pid ∈ w.locks →
      runJob env startTime now pid w = runJob env2 startTime now pid w ∧
      (runJob env startTime now pid w).db.plants = w.db.plants ∧
      (runJob env startTime now pid w).db.snapshots = w.db.snapshots ∧
      (runJob env startTime now pid w).db.alerts = w.db.alerts ∧
      (runJob env startTime now pid w).db.pollLogs =
        w.db.pollLogs ++ [mkPollLog pid .SUCCESS none startTime now] ∧
      (runJob env startTime now pid w).locks = w.locks := by
  intro env env2 startTime now pid w hl
  refine ⟨?_, ?_, ?_, ?_, ?_, ?_⟩ <;> simp [runJob, hl, addLog]

/-- C9 (witness for the amended theorem). -/
theorem C9_witness :
    runJob envFail 0 9 "p1" wLocked = runJob envC5 0 9 "p1" wLocked ∧
    (runJob envFail 0 9 "p1" wLocked).db.plants = wLocked.db.plants ∧
    (runJob envFail 0 9 "p1" wLocked).db.snapshots = wLocked.db.snapshots ∧
    (runJob envFail 0 9 "p1" wLocked).db.alerts = wLocked.db.alerts ∧
    (runJob envFail 0 9 "p1" wLocked).db.pollLogs =
      wLocked.db.pollLogs ++ [mkPollLog "p1" .SUCCESS none 0 9] ∧
    (runJob envFail 0 9 "p1" wLocked).locks = wLocked.locks :=
  C9_theorem envFail envC5 0 9 "p1" wLocked (by decide)

/-- C10: getAlarmsSince of the mock adapter returns exactly the fixture
alarms whose occurredAt is at or after since (in fixture order, as the
map of a sublist of the fixture), regardless of isActive; alarms strictly
older than since are never returned, so with the executor's
since = now − 24 h an alarm older than 24 hours is never re-presented. -/
theorem C10_theorem :
    ∀ fixture since,
      (∀ x ∈ mockGetAlarmsSince fixture since, since ≤ x.occurredAt) ∧
      (∀ a ∈ fixture, since ≤ a.occurredAt →
        normalizeFixtureAlarm a ∈ mockGetAlarmsSince fixture since) ∧
      (∀ x ∈ mockGetAlarmsSince fixture since,
        ∃ a ∈ fixture, since ≤ a.occurredAt ∧ x = normalizeFixtureAlarm a) ∧
      (∃ sub, List.Sublist sub fixture ∧
        mockGetAlarmsSince fixture since = sub.map normalizeFixtureAlarm) ∧
      (∀ a ∈ fixture, a.occurredAt < since →
        normalizeFixtureAlarm a ∉ mockGetAlarmsSince fixture since) ∧
      (∀ now a, a ∈ fixture → a.occurredAt < now - 24 * msPerHour →
        normalizeFixtureAlarm a ∉ mockGetAlarmsSince fixture
          (now - 24 * msPerHour)) := by
  have key : ∀ fixture since (a : FixtureAlarm), a ∈ fixture →
      a.occurredAt < since →
      normalizeFixtureAlarm a ∉ mockGetAlarmsSince fixture since := by
    intro fixture since a ha hlt hmem
    obtain ⟨b, hb, hba⟩ := List.mem_map.mp hmem
    have hble := (List.mem_filter.mp hb).2
    simp only [decide_eq_true_eq] at hble
    have hocc : b.occurredAt = a.occurredAt :=
      congrArg NormalizedAlarm.occurredAt hba
    omega
  intro fixture since
  refine ⟨?_, ?_, ?_, ?_, key fixture since, fun now => key fixture _⟩
  · intro x hx
    obtain ⟨a, ha, rfl⟩ := List.mem_map.mp hx
    have h := (List.mem_filter.mp ha).2
    simpa [normalizeFixtureAlarm] using h
  · intro a ha h
    exact List.mem_map_of_mem _ (List.mem_filter.mpr ⟨ha, by simpa using h⟩)
  · intro x hx
    obtain ⟨a, ha, rfl⟩ := List.mem_map.mp hx
    exact ⟨a, (List.mem_filter.mp ha).1,
      by simpa using (List.mem_filter.mp ha).2, rfl⟩
  · exact ⟨_, List.filter_sublist _, rfl⟩

/-- C10 (witness). -/
theorem C10_witness :
    normalizeFixtureAlarm faNew ∈
      mockGetAlarmsSince [faOld, faNew] (tC10 - 24 * msPerHour) ∧
    normalizeFixtureAlarm faOld ∉
      mockGetAlarmsSince [faOld, faNew] (tC10 - 24 * msPerHour) ∧
    faOld.isActive = true :=
  ⟨(C10_theorem [faOld, faNew] (tC10 - 24 * msPerHour)).2.1 faNew
      (by decide) (by decide),
   (C10_theorem [faOld, faNew] (tC10 - 24 * msPerHour)).2.2.2.2.2 tC10 faOld
      (by decide) (by decide),
   rfl⟩

end Solarinvest
